import Mathlib

/-!
Verification of the investment-strategy comparison core (investment.py).
Python floats are modelled as exact rationals; each method that mutates an
object is embedded as a function returning the updated record together with
the method's return value.
-/

/-- Global economic assumptions shared by all investments in a run
(`SimulationConfig` dataclass). -/
structure SimulationConfig where
  inflation_rate : ℚ := 3/100
  marginal_tax_rate : ℚ := 37/100
  capital_gains_tax_discount : ℚ := 1/2
  stamp_duty_rate : ℚ := 4/100
  closing_costs : ℚ := 3000

/-- Amortizing-loan state (`Mortgage` dataclass). -/
structure Mortgage where
  principal : ℚ
  interest_rate : ℚ
  term_years : ℕ
  offset_balance : ℚ := 0

/-- `Mortgage.calculate_annual_payment`: standard amortization formula,
with the straight-line fallback when the rate is zero. -/
def Mortgage.calculate_annual_payment (m : Mortgage) : ℚ :=
  let r := m.interest_rate
  let n := m.term_years
  if r = 0 then m.principal / (n : ℚ)
  else
    let numerator := r * (1 + r) ^ n
    let denominator := (1 + r) ^ n - 1
    m.principal * (numerator / denominator)

/-- `Mortgage.pay_year`: advances the loan one year; returns the updated
mortgage together with (interest_paid, principal_paid, total_payment).
The clamp branch mirrors the source: when the raw principal component
exceeds the remaining principal, the component is set to the remaining
principal and the payment to interest + component. -/
def Mortgage.pay_year (m : Mortgage) : Mortgage × ℚ × ℚ × ℚ :=
  if m.principal ≤ 0 then (m, 0, 0, 0)
  else
    let annual_payment := m.calculate_annual_payment
    let effective_principal := max 0 (m.principal - m.offset_balance)
    let interest_component := effective_principal * m.interest_rate
    let raw_component := annual_payment - interest_component
    if raw_component > m.principal then
      ({ m with principal := m.principal - m.principal },
        interest_component, m.principal, interest_component + m.principal)
    else
      ({ m with principal := m.principal - raw_component },
        interest_component, raw_component, annual_payment)

/-- `ETFInvestment`: compounding-fund variant of the Investment base class
(name, value, config inherited; rate and mer added). -/
structure ETFInvestment where
  name : String
  value : ℚ
  config : SimulationConfig
  rate : ℚ
  mer : ℚ

/-- `ETFInvestment.invest_cash`: injects opportunity-cost capital. -/
def ETFInvestment.invest_cash (e : ETFInvestment) (amount : ℚ) : ETFInvestment :=
  { e with value := e.value + amount }

/-- `ETFInvestment.calculate_annual_return`: value grows by value * rate;
returns the growth amount. -/
def ETFInvestment.calculate_annual_return (e : ETFInvestment) : ETFInvestment × ℚ :=
  let growth := e.value * e.rate
  ({ e with value := e.value + growth }, growth)

/-- `ETFInvestment.apply_costs`: deducts value * mer; returns the fee. -/
def ETFInvestment.apply_costs (e : ETFInvestment) : ETFInvestment × ℚ :=
  let cost := e.value * e.mer
  ({ e with value := e.value - cost }, cost)

/-- `LeveragedProperty`: leveraged real-asset variant of the Investment
base class, owning a Mortgage. -/
structure LeveragedProperty where
  name : String
  value : ℚ
  config : SimulationConfig
  growth_rate : ℚ
  rental_yield : ℚ
  expenses : ℚ
  mortgage : Mortgage
  equity : ℚ

/-- `LeveragedProperty.__init__`: stores the fields and initializes
equity = purchase_price - mortgage.principal. -/
def LeveragedProperty.init (name : String) (purchase_price growth_rate rental_yield expenses : ℚ)
    (mortgage : Mortgage) (config : SimulationConfig) : LeveragedProperty :=
  { name := name, value := purchase_price, config := config, growth_rate := growth_rate,
    rental_yield := rental_yield, expenses := expenses, mortgage := mortgage,
    equity := purchase_price - mortgage.principal }

/-- `LeveragedProperty.calculate_annual_return`: capital growth compounding
on total asset value; returns the appreciation. -/
def LeveragedProperty.calculate_annual_return (p : LeveragedProperty) :
    LeveragedProperty × ℚ :=
  let appreciation := p.value * p.growth_rate
  ({ p with value := p.value + appreciation }, appreciation)

/-- The per-year intermediate figures computed inside
`LeveragedProperty.apply_costs`, in the source's order: rent on current
value, expenses inflated, mortgage advanced, negative-gearing tax logic,
and the resulting net cash flow. -/
structure YearFigures where
  rental_income : ℚ
  expenses : ℚ
  interest : ℚ
  principal_paid : ℚ
  mortgage_payment : ℚ
  taxable_income : ℚ
  tax_refund : ℚ
  tax_paid : ℚ
  net_cash_flow : ℚ

/-- The intermediate quantities of one `apply_costs` call, transcribed from
the body of `LeveragedProperty.apply_costs`. -/
def LeveragedProperty.year_figures (p : LeveragedProperty) : YearFigures :=
  let rental_income := p.value * p.rental_yield
  let expenses := p.expenses * (1 + p.config.inflation_rate)
  let pr := p.mortgage.pay_year
  let interest := pr.2.1
  let principal_paid := pr.2.2.1
  let mortgage_payment := pr.2.2.2
  let taxable_income := rental_income - interest - expenses
  let tax_refund := if taxable_income < 0 then |taxable_income| * p.config.marginal_tax_rate else 0
  let tax_paid := if taxable_income < 0 then 0 else taxable_income * p.config.marginal_tax_rate
  let net_cash_flow := rental_income + tax_refund - expenses - mortgage_payment - tax_paid
  { rental_income := rental_income, expenses := expenses, interest := interest,
    principal_paid := principal_paid, mortgage_payment := mortgage_payment,
    taxable_income := taxable_income, tax_refund := tax_refund, tax_paid := tax_paid,
    net_cash_flow := net_cash_flow }

/-- The net cash flow computed inside `LeveragedProperty.apply_costs`. -/
def LeveragedProperty.net_cash_flow (p : LeveragedProperty) : ℚ :=
  p.year_figures.net_cash_flow

/-- `LeveragedProperty.apply_costs`: the core annual algorithm. A positive
net cash flow is deposited into the mortgage offset balance; otherwise its
magnitude is returned as the out-of-pocket amount. Equity is recomputed as
value + offset_balance - principal. -/
def LeveragedProperty.apply_costs (p : LeveragedProperty) : LeveragedProperty × ℚ :=
  let f := p.year_figures
  let m := p.mortgage.pay_year.1
  let m2 := if f.net_cash_flow > 0
    then { m with offset_balance := m.offset_balance + f.net_cash_flow }
    else m
  let out_of_pocket := if f.net_cash_flow > 0 then 0 else |f.net_cash_flow|
  ({ p with
      expenses := f.expenses,
      mortgage := m2,
      equity := p.value + m2.offset_balance - m2.principal }, out_of_pocket)

/- Concrete instances used by the evaluation theorems. -/

/-- Config with all defaults (inflation 0.03, marginal tax 0.37, etc.). -/
def defaultConfig : SimulationConfig := {}

/-- A two-year loan at 100% interest used to evaluate full-term behavior. -/
def mortgageC1 : Mortgage := { principal := 100, interest_rate := 1, term_years := 2 }

/-- A two-year zero-interest loan. -/
def mortgageC6 : Mortgage := { principal := 100, interest_rate := 0, term_years := 2 }

/-- A generic live loan used as a witness input. -/
def mortW : Mortgage := { principal := 1000, interest_rate := 1/10, term_years := 3 }

/-- An exhausted loan (principal 0). -/
def mortDone : Mortgage := { principal := 0, interest_rate := 4/100, term_years := 30 }

/-- The ETF of the spec's worked example: 10000 at 7% growth, 1% MER. -/
def etfC8 : ETFInvestment :=
  { name := "ETF", value := 10000, config := defaultConfig, rate := 7/100, mer := 1/100 }

/-- A config with a zero marginal tax rate and no inflation. -/
def zeroTaxConfig : SimulationConfig :=
  { inflation_rate := 0, marginal_tax_rate := 0, capital_gains_tax_discount := 1/2,
    stamp_duty_rate := 4/100, closing_costs := 3000 }

/-- A config with the default marginal tax rate but no inflation. -/
def flatConfig : SimulationConfig :=
  { inflation_rate := 0, marginal_tax_rate := 37/100, capital_gains_tax_discount := 1/2,
    stamp_duty_rate := 4/100, closing_costs := 3000 }

/-- A loss-making property under the zero-tax config: no rent, expenses 10,
interest 10, so the taxable result is -20. -/
def propC5 : LeveragedProperty :=
  { name := "P0", value := 100, config := zeroTaxConfig, growth_rate := 0,
    rental_yield := 0, expenses := 10,
    mortgage := { principal := 100, interest_rate := 1/10, term_years := 10 },
    equity := 0 }

/-- The same loss-making property under the default 37% marginal tax rate. -/
def propW : LeveragedProperty :=
  { name := "P1", value := 100, config := flatConfig, growth_rate := 0,
    rental_yield := 0, expenses := 10,
    mortgage := { principal := 100, interest_rate := 1/10, term_years := 10 },
    equity := 0 }

/-- A name used for constructing objects with invalid numeric fields. -/
def badName : String := "Bad"

/-- A mortgage constructed with a negative principal and a zero term:
the dataclass constructor performs no validation. -/
def badMortgage : Mortgage :=
  { principal := -100, interest_rate := 4/100, term_years := 0 }

/-- A property constructed with a negative purchase price over the invalid
mortgage: the initializer performs no validation. -/
def badProperty : LeveragedProperty :=
  LeveragedProperty.init badName (-500000) (3/100) (4/100) 5000 badMortgage defaultConfig

/- Helper lemmas shared by several proofs. -/

/-- `pay_year` never touches the offset balance, in any branch. -/
lemma pay_year_offset_eq (m : Mortgage) : m.pay_year.1.offset_balance = m.offset_balance := by
  unfold Mortgage.pay_year
  split
  · rfl
  · dsimp only
    split <;> rfl

/- Claim theorems. -/

/-- Claim C1 (evaluated at a failing input): for Mortgage(100, rate 1, term 2),
two pay_year calls leave principal 400/9 rather than 0, and the principal
components sum to 500/9 rather than the original 100 — because pay_year
recomputes the annual payment from the current principal over the full term
every year, so the balance decays geometrically and never amortizes to 0. -/
theorem mortgage_full_term_residual :
    mortgageC1.pay_year.1.pay_year.1.principal = 400/9 ∧
    mortgageC1.pay_year.2.2.1 + mortgageC1.pay_year.1.pay_year.2.2.1 = 500/9 ∧
    mortgageC1.pay_year.1.pay_year.1.principal ≠ 0 ∧
    mortgageC1.pay_year.2.2.1 + mortgageC1.pay_year.1.pay_year.2.2.1 ≠
      mortgageC1.principal := by
  norm_num [mortgageC1, Mortgage.pay_year, Mortgage.calculate_annual_payment]

/-- Claim C2: for a live loan (principal > 0), one pay_year call returns
interest = max(0, principal - offset_balance) * rate, a principal component
equal to payment - interest clamped at the remaining principal, a total
payment equal to interest + principal component, and decreases the principal
by exactly the principal component, leaving it nonnegative. -/
theorem pay_year_step (m : Mortgage) (h : 0 < m.principal) :
    m.pay_year.2.1 = max 0 (m.principal - m.offset_balance) * m.interest_rate ∧
    m.pay_year.2.2.1 =
      (if m.calculate_annual_payment -
            max 0 (m.principal - m.offset_balance) * m.interest_rate > m.principal
        then m.principal
        else m.calculate_annual_payment -
            max 0 (m.principal - m.offset_balance) * m.interest_rate) ∧
    m.pay_year.2.2.2 = m.pay_year.2.1 + m.pay_year.2.2.1 ∧
    m.pay_year.1.principal = m.principal - m.pay_year.2.2.1 ∧
    0 ≤ m.pay_year.1.principal := by
  have hn : ¬ m.principal ≤ 0 := not_le.mpr h
  unfold Mortgage.pay_year
  rw [if_neg hn]
  dsimp only
  by_cases hc : m.calculate_annual_payment -
      max 0 (m.principal - m.offset_balance) * m.interest_rate > m.principal
  · simp only [if_pos hc]
    refine ⟨by trivial, by trivial, by trivial, by trivial, by simp⟩
  · simp only [if_neg hc]
    refine ⟨by trivial, by trivial, by ring, by trivial, ?_⟩
    have h2 := not_lt.mp hc
    linarith

/-- Witness for C2 at the concrete loan mortW. -/
theorem pay_year_step_witness :
    (0 : ℚ) < mortW.principal ∧
    (mortW.pay_year.2.1 = max 0 (mortW.principal - mortW.offset_balance) * mortW.interest_rate ∧
     mortW.pay_year.2.2.1 =
       (if mortW.calculate_annual_payment -
             max 0 (mortW.principal - mortW.offset_balance) * mortW.interest_rate >
             mortW.principal
         then mortW.principal
         else mortW.calculate_annual_payment -
             max 0 (mortW.principal - mortW.offset_balance) * mortW.interest_rate) ∧
     mortW.pay_year.2.2.2 = mortW.pay_year.2.1 + mortW.pay_year.2.2.1 ∧
     mortW.pay_year.1.principal = mortW.principal - mortW.pay_year.2.2.1 ∧
     0 ≤ mortW.pay_year.1.principal) :=
  ⟨by norm_num [mortW], pay_year_step mortW (by norm_num [mortW])⟩

/-- Claim C3: apply_costs routes the net cash flow: a strictly positive net
cash flow is deposited into the offset balance (principal is left exactly as
pay_year left it, and 0 is returned); otherwise the absolute value of the
net cash flow is returned out of pocket and the offset balance is unchanged. -/
theorem apply_costs_cash_routing (p : LeveragedProperty) :
    p.apply_costs.1.mortgage.offset_balance =
      (if p.net_cash_flow > 0 then p.mortgage.offset_balance + p.net_cash_flow
        else p.mortgage.offset_balance) ∧
    p.apply_costs.1.mortgage.principal = p.mortgage.pay_year.1.principal ∧
    p.apply_costs.2 = (if p.net_cash_flow > 0 then 0 else |p.net_cash_flow|) := by
  have hoff := pay_year_offset_eq p.mortgage
  unfold LeveragedProperty.apply_costs LeveragedProperty.net_cash_flow
  by_cases hc : p.year_figures.net_cash_flow > 0
  · simp only [if_pos hc]
    refine ⟨?_, by trivial, by trivial⟩
    dsimp only
    rw [hoff]
  · simp only [if_neg hc]
    refine ⟨?_, by trivial, by trivial⟩
    dsimp only
    rw [hoff]

/-- Claim C4: after every apply_costs call, the equity field equals
value + offset_balance - principal, read off the post-call state. -/
theorem equity_identity (p : LeveragedProperty) :
    p.apply_costs.1.equity =
      p.apply_costs.1.value + p.apply_costs.1.mortgage.offset_balance -
        p.apply_costs.1.mortgage.principal := by
  unfold LeveragedProperty.apply_costs
  dsimp only

/-- Counterexample to claim C5 as stated: with a zero marginal tax rate the
taxable result is negative (-20) yet the tax refund is 0, so the net cash
flow does not strictly exceed the zero-refund baseline. -/
theorem tax_refund_strictness_cex :
    propC5.year_figures.taxable_income < 0 ∧
    ¬ (propC5.year_figures.net_cash_flow - propC5.year_figures.tax_refund <
        propC5.year_figures.net_cash_flow) := by
  norm_num [propC5, zeroTaxConfig, LeveragedProperty.year_figures,
    Mortgage.pay_year, Mortgage.calculate_annual_payment]

/-- Claim C5 (amended only in the strictness clause, which now assumes
marginal_tax_rate > 0): on a taxable loss (rental income minus interest minus
inflated expenses < 0) the refund equals |loss| * marginal_tax_rate, no tax
is paid, and the refund strictly increases the net cash flow over a
zero-refund baseline; on a nonnegative taxable result the tax paid equals it
times marginal_tax_rate and no refund is granted. -/
theorem tax_refund_negative_gearing (p : LeveragedProperty)
    (hm : 0 < p.config.marginal_tax_rate) :
    p.year_figures.tax_refund =
      (if p.year_figures.taxable_income < 0
        then |p.year_figures.taxable_income| * p.config.marginal_tax_rate else 0) ∧
    p.year_figures.tax_paid =
      (if p.year_figures.taxable_income < 0 then 0
        else p.year_figures.taxable_income * p.config.marginal_tax_rate) ∧
    (p.year_figures.taxable_income < 0 →
      p.year_figures.net_cash_flow - p.year_figures.tax_refund <
        p.year_figures.net_cash_flow) := by
  have h2 : p.year_figures.tax_refund =
      if p.year_figures.taxable_income < 0
        then |p.year_figures.taxable_income| * p.config.marginal_tax_rate else 0 := rfl
  have h3 : p.year_figures.tax_paid =
      if p.year_figures.taxable_income < 0 then 0
        else p.year_figures.taxable_income * p.config.marginal_tax_rate := rfl
  refine ⟨h2, h3, ?_⟩
  intro h
  have hr : 0 < p.year_figures.tax_refund := by
    rw [h2, if_pos h]
    exact mul_pos (abs_pos.mpr (ne_of_lt h)) hm
  linarith

/-- Witness for C5 at a concrete loss-making property with a 37% rate,
whose taxable result is negative so the loss branch is the live one. -/
theorem tax_refund_negative_gearing_witness :
    0 < propW.config.marginal_tax_rate ∧
    propW.year_figures.taxable_income < 0 ∧
    (propW.year_figures.tax_refund =
       (if propW.year_figures.taxable_income < 0
         then |propW.year_figures.taxable_income| * propW.config.marginal_tax_rate else 0) ∧
     propW.year_figures.tax_paid =
       (if propW.year_figures.taxable_income < 0 then 0
         else propW.year_figures.taxable_income * propW.config.marginal_tax_rate) ∧
     (propW.year_figures.taxable_income < 0 →
       propW.year_figures.net_cash_flow - propW.year_figures.tax_refund <
         propW.year_figures.net_cash_flow)) :=
  ⟨by norm_num [propW, flatConfig],
   by norm_num [propW, flatConfig, LeveragedProperty.year_figures,
      Mortgage.pay_year, Mortgage.calculate_annual_payment],
   tax_refund_negative_gearing propW (by norm_num [propW, flatConfig])⟩

/-- Claim C6 (evaluated at a failing input): for Mortgage(100, rate 0, term 2),
the annual payment is 100/2 = 50 as the spec says, but the two pay_year calls
produce unequal principal components 50 and 25 and leave principal 25, not 0 —
again because the payment is recomputed from the current principal over the
full fixed term each year. -/
theorem mortgage_zero_rate_residual :
    mortgageC6.calculate_annual_payment = 50 ∧
    mortgageC6.pay_year.2.2.1 = 50 ∧
    mortgageC6.pay_year.1.pay_year.2.2.1 = 25 ∧
    mortgageC6.pay_year.1.pay_year.1.principal = 25 ∧
    mortgageC6.pay_year.1.pay_year.1.principal ≠ 0 := by
  norm_num [mortgageC6, Mortgage.pay_year, Mortgage.calculate_annual_payment]

/-- Claim C7: with principal ≤ 0, pay_year returns (0, 0, 0) and leaves the
whole mortgage state unchanged, so repeated calls are idempotent no-ops. -/
theorem pay_year_terminal (m : Mortgage) (h : m.principal ≤ 0) :
    m.pay_year = (m, 0, 0, 0) := by
  unfold Mortgage.pay_year
  rw [if_pos h]

/-- Witness for C7 at the exhausted loan mortDone. -/
theorem pay_year_terminal_witness :
    mortDone.principal ≤ 0 ∧ mortDone.pay_year = (mortDone, 0, 0, 0) :=
  ⟨by norm_num [mortDone], pay_year_terminal mortDone (by norm_num [mortDone])⟩

/-- Claim C8: for the ETF with initial value 10000, rate 0.07, mer 0.01, one
calculate_annual_return call sets value 10700 and returns 700; the following
apply_costs call sets value 10593 and returns the fee 107, charged on the
post-growth value 10700. -/
theorem etf_scenario :
    etfC8.calculate_annual_return.1.value = 10700 ∧
    etfC8.calculate_annual_return.2 = 700 ∧
    etfC8.calculate_annual_return.1.apply_costs.1.value = 10593 ∧
    etfC8.calculate_annual_return.1.apply_costs.2 =
      etfC8.calculate_annual_return.1.value * etfC8.mer := by
  norm_num [etfC8, ETFInvestment.calculate_annual_return, ETFInvestment.apply_costs]

/-- Claim C9 (evaluated at a failing input): the constructors perform no
validation — a mortgage with negative principal and zero term, and a property
with negative purchase price, are accepted and stored verbatim rather than
rejected at construction time. -/
theorem construction_no_validation :
    badMortgage.principal = -100 ∧ badMortgage.term_years = 0 ∧
    badProperty.value = -500000 ∧ badProperty.mortgage.principal = -100 := by
  norm_num [badMortgage, badProperty, LeveragedProperty.init]

/-- Claim C10: the offset balance is monotonically non-decreasing across
every pay_year, calculate_annual_return and apply_costs call: pay_year and
calculate_annual_return leave it unchanged, and apply_costs only ever adds
a positive net cash flow to it. -/
theorem offset_monotone (m : Mortgage) (p : LeveragedProperty) :
    m.pay_year.1.offset_balance = m.offset_balance ∧
    p.calculate_annual_return.1.mortgage.offset_balance = p.mortgage.offset_balance ∧
    p.mortgage.offset_balance ≤ p.apply_costs.1.mortgage.offset_balance := by
  refine ⟨pay_year_offset_eq m, rfl, ?_⟩
  have hoff := pay_year_offset_eq p.mortgage
  unfold LeveragedProperty.apply_costs
  by_cases hc : p.year_figures.net_cash_flow > 0
  · simp only [if_pos hc]
    try dsimp only
    rw [hoff]
    linarith
  · simp only [if_neg hc]
    try dsimp only
    rw [hoff]
